import Mathlib

/-!
Shallow embedding of the PyQuest runner service
(src/pyquest/services/runner/app.py) and verification of the frozen
claims about it.

Modelling conventions:
* Python `str` values are Lean `String`s; `len` on a Python string counts
  code points, which matches `String.data.length`.
* The regular-expression searches of `evaluate_test` are embedded as
  explicit functions on `List Char` that reproduce the leftmost-match,
  greedy/lazy semantics of the concrete patterns used by the code
  (`\b<v>\s*=`, `<v>\s*=\s*(.+?)(?:\n|$)`, `<v>\s*=\s*\[(.+?)\]`).
  `re.escape` makes the variable a literal token, so the embedding
  matches it character by character.
* JSON scalars that can appear in a `TestSpec` (`expected` values) are
  modelled by `PyVal` (string or integer); Python `==` between values of
  different types is `false`, which the derived equality reproduces.
  A field that is absent (or JSON `null`) is `Option.none`.
* The subprocess step itself is not pure; it is modelled by `RawExec`,
  the raw result the `subprocess.run` call hands back (completed with
  raw streams, timeout, or an internal exception).  All the
  post-processing of lines 67-97 is embedded in `execute_python_code`.
* `evaluate_test` can raise `TypeError` (`re.escape(None)` when a
  variable-based test has no `variable` field); this is modelled with
  `Except PyError`.  The Flask handler catches it and answers HTTP 500.
* `executionTimeMs` is a wall-clock measurement and is not embedded.
-/

namespace Runner

/-- Python `\s` character class (ASCII part, which is all the code relies on). -/
def isPySpace (c : Char) : Bool :=
  c = ' ' || c = '\t' || c = '\n' || c = '\r' || c = '\x0b' || c = '\x0c'

/-- Python `\w` character class (ASCII part). -/
def isWordChar (c : Char) : Bool :=
  c.isAlpha || c.isDigit || c = '_'

/-- Python `str.strip()` on a character list. -/
def pyStripChars (l : List Char) : List Char :=
  ((l.dropWhile isPySpace).reverse.dropWhile isPySpace).reverse

/-- Python `str.strip()`. -/
def pyStrip (s : String) : String := ⟨pyStripChars s.data⟩

/-- Python `str.split(sep)` with a one-character separator. -/
def pySplitOn (sep : Char) : List Char → List (List Char)
  | [] => [[]]
  | c :: rest =>
    if c = sep then [] :: pySplitOn sep rest
    else
      match pySplitOn sep rest with
      | [] => [[c]]
      | h :: t => (c :: h) :: t

/-- Python `needle in haystack` substring test. -/
def containsSub (needle : List Char) : List Char → Bool
  | [] => needle.isEmpty
  | c :: rest => needle.isPrefixOf (c :: rest) || containsSub needle rest

/-- Strip a literal token from the front of `s`, returning the rest. -/
def dropLit (v : List Char) (s : List Char) : Option (List Char) :=
  if v.isPrefixOf s then some (s.drop v.length) else none

/-- Does the (possibly empty) remaining input start with a word character? -/
def headIsWord : List Char → Bool
  | [] => false
  | c :: _ => isWordChar c

/-- Match of `\b<v>\s*=` at the current position; `prevWord` tells whether
the character before this position is a word character (Python `\b` is an
exclusive-or of the two sides). -/
def matchExistsAt (v : List Char) (prevWord : Bool) (s : List Char) : Bool :=
  (prevWord != headIsWord s) &&
    (match dropLit v s with
     | none => false
     | some r =>
       match r.dropWhile isPySpace with
       | '=' :: _ => true
       | _ => false)

/-- `re.search(r'\b<v>\s*=', code)` as a Boolean: try every position left
to right, tracking whether the previous character is a word character. -/
def searchExistsAux (v : List Char) (prevWord : Bool) : List Char → Bool
  | [] => matchExistsAt v prevWord []
  | c :: rest =>
    matchExistsAt v prevWord (c :: rest) || searchExistsAux v (isWordChar c) rest

def searchExists (v : List Char) (code : List Char) : Bool :=
  searchExistsAux v false code

/-- Match of `<v>\s*=\s*(.+?)(?:\n|$)` at the current position, returning
the captured group.  The second `\s*` is greedy; if nothing but whitespace
follows it to the end of input, the engine backtracks one step and the
lazy group captures exactly the last whitespace character that is not a
newline (followed by `\n` or the end of input). -/
def matchValueAt (v : List Char) (s : List Char) : Option (List Char) :=
  match dropLit v s with
  | none => none
  | some r =>
    match r.dropWhile isPySpace with
    | '=' :: r2 =>
      match r2.dropWhile isPySpace with
      | [] =>
        match (r2.takeWhile isPySpace).reverse.dropWhile (fun c => c = '\n') with
        | [] => none
        | c :: _ => some [c]
      | d :: rest2 => some ((d :: rest2).takeWhile (fun c => c != '\n'))
    | _ => none

/-- Lazy bracket body after the opening `[`: the shortest non-empty,
newline-free run of characters followed by `]`.  `bcAux` scans for the
closing bracket once at least one character has been consumed. -/
def bcAux : List Char → Option (List Char)
  | [] => none
  | c :: rest =>
    if c = ']' then some []
    else if c = '\n' then none
    else (bcAux rest).map (fun l => c :: l)

def bracketContent : List Char → Option (List Char)
  | [] => none
  | c :: rest =>
    if c = '\n' then none else (bcAux rest).map (fun l => c :: l)

/-- Match of `<v>\s*=\s*\[(.+?)\]` at the current position, returning the
captured bracket body. -/
def matchListAt (v : List Char) (s : List Char) : Option (List Char) :=
  match dropLit v s with
  | none => none
  | some r =>
    match r.dropWhile isPySpace with
    | '=' :: r2 =>
      match r2.dropWhile isPySpace with
      | '[' :: cs => bracketContent cs
      | _ => none
    | _ => none

/-- `re.search`: try the position-local matcher at each start position,
left to right, and return the first hit. -/
def firstMatch (m : List Char → Option (List Char)) : List Char → Option (List Char)
  | [] => m []
  | c :: rest =>
    match m (c :: rest) with
    | some val => some val
    | none => firstMatch m rest

/-- First match of `<v>\s*=\s*(.+?)(?:\n|$)` in the source (lines 155/193). -/
def searchAssign (v : List Char) (code : List Char) : Option (List Char) :=
  firstMatch (matchValueAt v) code

/-- First match of `<v>\s*=\s*\[(.+?)\]` in the source (lines 238/267). -/
def searchList (v : List Char) (code : List Char) : Option (List Char) :=
  firstMatch (matchListAt v) code

/-- `value.startswith(a) and value.endswith(b)` for one-character affixes. -/
def startEnds (a b : Char) (l : List Char) : Bool :=
  l.head? = some a && l.getLast? = some b

/-- `re.match(r'^\d+$', value)`. -/
def isIntTok (l : List Char) : Bool :=
  !l.isEmpty && l.all Char.isDigit

/-- `re.match(r'^\d+\.\d+$', value)`. -/
def isFloatTok (l : List Char) : Bool :=
  let ds := l.takeWhile Char.isDigit
  let rest := l.dropWhile Char.isDigit
  !ds.isEmpty &&
    (match rest with
     | '.' :: frac => !frac.isEmpty && frac.all Char.isDigit
     | _ => false)

/-- The type classifier of the `variable_type` strategy (lines 167-178),
first match wins. -/
def detectType (value : List Char) : String :=
  if startEnds '\x22' '\x22' value || startEnds '\x27' '\x27' value then "str"
  else if isIntTok value then "int"
  else if isFloatTok value then "float"
  else if startEnds '[' ']' value then "list"
  else if startEnds '\x7b' '\x7d' value then "dict"
  else "unknown"

/-- A scalar JSON value supplied in a `TestSpec` (`expected` fields). -/
inductive PyVal
  | str (s : String)
  | int (n : Int)
deriving DecidableEq

/-- Python `str(v)`. -/
def pyStr : PyVal → String
  | .str s => s
  | .int n => toString n

/-- `str(test.get(k, ''))`: default is the empty string. -/
def pyStrD (o : Option PyVal) : String :=
  match o with
  | none => ""
  | some v => pyStr v

/-- `str(x)` / f-string rendering where an absent field is Python `None`. -/
def pyStrN (o : Option PyVal) : String :=
  match o with
  | none => "None"
  | some v => pyStr v

def hexDigit (n : Nat) : Char :=
  if n < 10 then Char.ofNat (48 + n) else Char.ofNat (87 + n)

def hex4 (n : Nat) : List Char :=
  [hexDigit (n / 4096 % 16), hexDigit (n / 256 % 16), hexDigit (n / 16 % 16), hexDigit (n % 16)]

/-- `json.dumps` escaping for one character (default `ensure_ascii=True`). -/
def jsonEscChar (c : Char) : List Char :=
  if c = '\x22' then ['\\', '\x22']
  else if c = '\\' then ['\\', '\\']
  else if c = '\n' then ['\\', 'n']
  else if c = '\t' then ['\\', 't']
  else if c = '\r' then ['\\', 'r']
  else if c = '\x08' then ['\\', 'b']
  else if c = '\x0c' then ['\\', 'f']
  else if c.val < 32 || c.val ≥ 127 then '\\' :: 'u' :: hex4 c.toNat
  else [c]

/-- `json.dumps(expected)` for the scalar values a test can carry. -/
def jsonDumps : Option PyVal → String
  | none => "null"
  | some (.int n) => toString n
  | some (.str s) => ⟨'\x22' :: ((s.data.map jsonEscChar).flatten ++ ['\x22'])⟩

/-- A test specification as received in the request JSON.  Absent keys are
`none` (`test.get(...)` then yields Python `None` or the stated default).
The source key `variable` is spelled `var` here (`variable` is reserved in
Lean). -/
structure TestSpec where
  type : Option String
  description : Option String
  var : Option String
  expected : Option PyVal
  expectedType : Option String
deriving DecidableEq

/-- A verdict dictionary built by `evaluate_test`.  Keys that a branch
does not set are `none`. -/
structure TestVerdict where
  description : Option String
  passed : Bool
  expected : Option PyVal
  actual : Option PyVal
  error : Option String
deriving DecidableEq

/-- The one runtime exception `evaluate_test` can raise:
`re.escape(None)` when a variable-based test lacks its `variable` field. -/
inductive PyError
  | typeError
deriving DecidableEq

/-- List-length computation of lines 276-278: comma-split, strip each
item, keep the non-empty ones, count. -/
def countItems (content : List Char) : Nat :=
  (((pySplitOn ',' content).map pyStripChars).filter (fun l => !l.isEmpty)).length

/-- `evaluate_test` (lines 100-292). -/
def evaluate_test (code stdout stderr : String) (t : TestSpec) : Except PyError TestVerdict :=
  if stderr ≠ "" ∧ stdout = "" then
    .ok ⟨some (t.description.getD "Test"), false, none, some (.str "Execution error"), some stderr⟩
  else
    match t.type with
    | some "output" =>
      let expected := pyStrip (pyStrD t.expected)
      let actual := pyStrip stdout
      .ok ⟨t.description, decide (actual = expected), some (.str expected), some (.str actual), none⟩
    | some "variable_exists" =>
      match t.var with
      | none => .error .typeError
      | some v =>
        let found := searchExists v.data code.data
        .ok ⟨t.description, found,
          some (.str ("Variable \x27" ++ v ++ "\x27 should exist")),
          some (.str (if found then "Found" else "Not found")), none⟩
    | some "variable_type" =>
      match t.var with
      | none => .error .typeError
      | some v =>
        match searchAssign v.data code.data with
        | none =>
          .ok ⟨t.description, false, t.expectedType.map PyVal.str,
            some (.str "Variable not found"), none⟩
        | some raw =>
          let ty := detectType (pyStripChars raw)
          .ok ⟨t.description, decide (t.expectedType = some ty),
            t.expectedType.map PyVal.str, some (.str ty), none⟩
    | some "variable_value" =>
      match t.var with
      | none => .error .typeError
      | some v =>
        match searchAssign v.data code.data with
        | none =>
          .ok ⟨t.description, false, t.expected, some (.str "Variable not found"), none⟩
        | some raw =>
          let actual : String := ⟨pyStripChars raw⟩
          let es := pyStrN t.expected
          let m := decide (actual = es) ||
            decide (actual = "\x22" ++ es ++ "\x22") ||
            decide (actual = "\x27" ++ es ++ "\x27")
          .ok ⟨t.description, m, t.expected, some (.str actual), none⟩
    | some "function_call" =>
      let expected := pyStrip (pyStrD t.expected)
      let passed := (pySplitOn '\n' stdout.data).any
        (fun l => decide ((⟨pyStripChars l⟩ : String) = expected))
      .ok ⟨t.description, passed, some (.str expected), some (.str stdout), none⟩
    | some "list_contains" =>
      match t.var with
      | none => .error .typeError
      | some v =>
        match searchList v.data code.data with
        | none =>
          .ok ⟨t.description, false, t.expected, some (.str "List not found"), none⟩
        | some content =>
          let c1 := containsSub (jsonDumps t.expected).data content
          let c2 := containsSub ("\x27" ++ pyStrN t.expected ++ "\x27").data content
          let c3 := containsSub ("\x22" ++ pyStrN t.expected ++ "\x22").data content
          .ok ⟨t.description, c1 || c2 || c3,
            some (.str ("List should contain " ++ pyStrN t.expected)),
            some (.str ⟨content⟩), none⟩
    | some "list_length" =>
      match t.var with
      | none => .error .typeError
      | some v =>
        match searchList v.data code.data with
        | none =>
          .ok ⟨t.description, false, t.expected, some (.str "List not found"), none⟩
        | some content =>
          let n := countItems content
          .ok ⟨t.description, decide (t.expected = some (.int (n : Int))),
            t.expected, some (.int (n : Int)), none⟩
    | _ =>
      .ok ⟨t.description, false, none, none,
        some ("Unknown test type: " ++ (t.type.getD "None"))⟩

/-- The structured outcome `execute_python_code` returns: a dict with the
keys `stdout` and `stderr` (and nothing else). -/
structure Outcome where
  stdout : String
  stderr : String
deriving DecidableEq

/-- What the subprocess step hands back before post-processing: the raw
captured streams, a `subprocess.TimeoutExpired`, or any other exception. -/
inductive RawExec
  | completed (out : String) (err : String)
  | timedOut
  | execError (msg : String)
deriving DecidableEq

def MAX_EXECUTION_TIME : Nat := 2
def MAX_OUTPUT_SIZE : Nat := 1024 * 1024
def MAX_CODE_SIZE : Nat := 100 * 1024

def OUT_SENT : String := "\n[Output truncated - exceeded 1MB limit]"
def ERR_SENT : String := "\n[Error output truncated - exceeded 1MB limit]"

/-- Lines 68-75: cap one stream at `MAX_OUTPUT_SIZE` characters and append
the sentinel when the raw stream was longer.  (Slicing an empty string and
the `if process.stdout else ''` guard coincide.) -/
def pyTrunc (raw : String) (sentinel : String) : String :=
  let s : String := ⟨raw.data.take MAX_OUTPUT_SIZE⟩
  if raw.data.length > MAX_OUTPUT_SIZE then s ++ sentinel else s

/-- `execute_python_code` (lines 33-97), as a function of the raw
subprocess result.  Both streams are truncated, sentinel-tagged and then
stripped; a timeout or an internal exception yields empty stdout and a
fixed-form stderr. -/
def execute_python_code : RawExec → Outcome
  | .completed out err => ⟨pyStrip (pyTrunc out OUT_SENT), pyStrip (pyTrunc err ERR_SENT)⟩
  | .timedOut => ⟨"", "Error: Execution timeout (2 seconds exceeded)"⟩
  | .execError msg => ⟨"", "Execution error: " ++ msg⟩

/-- Parsed request body.  `none` at the top level covers a missing or
falsy (`not data`) JSON body. -/
structure ReqData where
  code : Option String
  tests : Option (List TestSpec)
deriving DecidableEq

structure RunResult where
  success : Bool
  stdout : String
  stderr : String
  testResults : List TestVerdict
  allPassed : Bool
deriving DecidableEq

inductive HttpResponse
  | ok (body : RunResult)
  | badRequest (error : String)
  | serverError (error : String)
deriving DecidableEq

/-- Rendering of the caught exception in the 500 handler (`str(e)`);
the exact text is irrelevant to every claim, only the 500 status is. -/
def pyErrMsg : PyError → String
  | .typeError => "TypeError"

/-- The evaluation loop of lines 367-370: one verdict appended per test,
in order; the first uncaught exception aborts the whole loop (and is then
converted to a 500 by the surrounding handler). -/
def evalTests (code out err : String) : List TestSpec → Except PyError (List TestVerdict)
  | [] => .ok []
  | t :: ts =>
    match evaluate_test code out err t with
    | .error e => .error e
    | .ok r =>
      match evalTests code out err ts with
      | .error e => .error e
      | .ok rs => .ok (r :: rs)

/-- `run_code` (lines 305-387).  `execBackend` is the subprocess call; it
is only consulted after validation succeeds. -/
def run_code (data : Option ReqData) (execBackend : String → RawExec) : HttpResponse :=
  match data with
  | none => .badRequest "Invalid JSON"
  | some d =>
    let code := d.code.getD ""
    let tests := d.tests.getD []
    if code = "" then .badRequest "No code provided"
    else if code.data.length > MAX_CODE_SIZE then
      .badRequest "Code exceeds maximum size (102400 bytes)"
    else
      let outcome := execute_python_code (execBackend code)
      match evalTests code outcome.stdout outcome.stderr tests with
      | .error e => .serverError (pyErrMsg e)
      | .ok results =>
        .ok ⟨true, outcome.stdout, outcome.stderr, results, results.all (fun r => r.passed)⟩

def allPassedOf : HttpResponse → Option Bool
  | .ok r => some r.allPassed
  | _ => none

def stdoutOf : HttpResponse → Option String
  | .ok r => some r.stdout
  | _ => none

def stderrOf : HttpResponse → Option String
  | .ok r => some r.stderr
  | _ => none

def isOkResp : HttpResponse → Bool
  | .ok _ => true
  | _ => false

def isServerErrorResp : HttpResponse → Bool
  | .serverError _ => true
  | _ => false

/-- UTF-8 byte length of a string — the "byte length" the spec's size
invariant speaks about (the code itself checks `len(code)`, which counts
code points). -/
def utf8Len (s : String) : Nat :=
  (s.data.map Char.utf8Size).sum

/-! ### Pipeline helper lemmas -/

theorem evalTests_ok_of_pointwise (code out err : String) (g : TestSpec → TestVerdict) :
    ∀ ts : List TestSpec, (∀ t ∈ ts, evaluate_test code out err t = .ok (g t)) →
      evalTests code out err ts = .ok (ts.map g) := by
  intro ts h
  induction ts with
  | nil => rfl
  | cons t ts ih =>
    have ht : evaluate_test code out err t = .ok (g t) := h t (List.mem_cons_self t ts)
    have hts := ih (fun u hu => h u (List.mem_cons_of_mem t hu))
    simp only [evalTests, ht, hts, List.map_cons]

theorem run_code_ok (d : ReqData) (ex : String → RawExec) (rs : List TestVerdict)
    (h1 : d.code.getD "" ≠ "")
    (h2 : (d.code.getD "").data.length ≤ MAX_CODE_SIZE)
    (h3 : evalTests (d.code.getD "")
      (execute_python_code (ex (d.code.getD ""))).stdout
      (execute_python_code (ex (d.code.getD ""))).stderr
      (d.tests.getD []) = .ok rs) :
    run_code (some d) ex = .ok ⟨true,
      (execute_python_code (ex (d.code.getD ""))).stdout,
      (execute_python_code (ex (d.code.getD ""))).stderr,
      rs, rs.all (fun r => r.passed)⟩ := by
  simp only [run_code, if_neg h1, if_neg (Nat.not_lt.mpr h2), h3]

theorem run_code_error (d : ReqData) (ex : String → RawExec) (e : PyError)
    (h1 : d.code.getD "" ≠ "")
    (h2 : (d.code.getD "").data.length ≤ MAX_CODE_SIZE)
    (h3 : evalTests (d.code.getD "")
      (execute_python_code (ex (d.code.getD ""))).stdout
      (execute_python_code (ex (d.code.getD ""))).stderr
      (d.tests.getD []) = .error e) :
    run_code (some d) ex = .serverError (pyErrMsg e) := by
  simp only [run_code, if_neg h1, if_neg (Nat.not_lt.mpr h2), h3]

theorem evaluate_test_short_circuit (code out err : String) (t : TestSpec)
    (herr : err ≠ "") (hout : out = "") :
    evaluate_test code out err t =
      .ok ⟨some (t.description.getD "Test"), false, none,
        some (.str "Execution error"), some err⟩ := by
  simp only [evaluate_test, if_pos (And.intro herr hout)]

/-! ### C1 -/

/-- C1: whenever the execution outcome has non-empty stderr and empty
stdout, `evaluate_test` short-circuits every `TestSpec` — of any type —
to a failing verdict whose `error` field is the raw stderr and whose
`actual` field is `"Execution error"`; consequently a request reaching
execution with at least one test gets `allPassed = false`. -/
theorem C1_global_short_circuit :
    (∀ (code out err : String) (t : TestSpec), err ≠ "" → out = "" →
      evaluate_test code out err t =
        .ok ⟨some (t.description.getD "Test"), false, none,
          some (.str "Execution error"), some err⟩) ∧
    (∀ (d : ReqData) (ex : String → RawExec),
      d.code.getD "" ≠ "" →
      (d.code.getD "").data.length ≤ MAX_CODE_SIZE →
      d.tests.getD [] ≠ [] →
      (execute_python_code (ex (d.code.getD ""))).stderr ≠ "" →
      (execute_python_code (ex (d.code.getD ""))).stdout = "" →
      allPassedOf (run_code (some d) ex) = some false) := by
  refine ⟨evaluate_test_short_circuit, ?_⟩
  intro d ex h1 h2 h3 herr hout
  set code := d.code.getD "" with hc
  set out := (execute_python_code (ex code)).stdout with ho
  set err := (execute_python_code (ex code)).stderr with he
  have hall : evalTests code out err (d.tests.getD []) =
      .ok ((d.tests.getD []).map (fun t =>
        ⟨some (t.description.getD "Test"), false, none,
          some (.str "Execution error"), some err⟩)) :=
    evalTests_ok_of_pointwise code out err _ _
      (fun t _ => evaluate_test_short_circuit code out err t herr hout)
  have := run_code_ok d ex _ h1 h2 hall
  rw [this]
  simp only [allPassedOf]
  congr 1
  cases hts : d.tests.getD [] with
  | nil => exact absurd hts h3
  | cons t ts => simp [List.all_cons]

/-- Witness for C1 at a concrete request: a program whose launch raised an
internal error (stderr `"Execution error: boom"`, stdout empty) with one
`output` test. -/
theorem C1_witness :
    evaluate_test "x = 1" "" "boom" ⟨some "output", none, none, none, none⟩ =
      .ok ⟨some "Test", false, none, some (.str "Execution error"), some "boom"⟩ ∧
    allPassedOf (run_code
      (some ⟨some "x = 1", some [⟨some "output", none, none, none, none⟩]⟩)
      (fun _ => .execError "boom")) = some false := by
  constructor
  · exact C1_global_short_circuit.1 "x = 1" "" "boom" _ (by decide) rfl
  · exact C1_global_short_circuit.2
      ⟨some "x = 1", some [⟨some "output", none, none, none, none⟩]⟩
      (fun _ => .execError "boom")
      (by decide) (by decide) (by decide) (by decide) (by decide)

/-! ### C2 -/

/-- C2 counterexample: at the concrete timed-out execution, the outcome's
stderr is not the claimed string `"Execution timeout (2 seconds
exceeded)"` — the code prepends `"Error: "` (line 85).  (The outcome dict
moreover has no `timedOut` field at all: it carries only `stdout` and
`stderr`.) -/
theorem C2_counterexample :
    (execute_python_code .timedOut).stderr ≠ "Execution timeout (2 seconds exceeded)" := by
  decide

/-- C2 amended: on timeout the outcome has `stdout = ""` (partial output
discarded) and `stderr = "Error: Execution timeout (2 seconds exceeded)"`;
there is no `timedOut` flag.  Through the pipeline, a request whose
execution times out is answered with exactly these two streams. -/
theorem C2_timeout_outcome :
    execute_python_code .timedOut =
      ⟨"", "Error: Execution timeout (2 seconds exceeded)"⟩ ∧
    (∀ (d : ReqData) (ex : String → RawExec),
      d.code.getD "" ≠ "" →
      (d.code.getD "").data.length ≤ MAX_CODE_SIZE →
      ex (d.code.getD "") = .timedOut →
      stdoutOf (run_code (some d) ex) = some "" ∧
      stderrOf (run_code (some d) ex) =
        some "Error: Execution timeout (2 seconds exceeded)") := by
  refine ⟨rfl, ?_⟩
  intro d ex h1 h2 hto
  set code := d.code.getD "" with hc
  have hout : execute_python_code (ex code) =
      ⟨"", "Error: Execution timeout (2 seconds exceeded)"⟩ := by rw [hto]; rfl
  have hall : evalTests code (execute_python_code (ex code)).stdout
      (execute_python_code (ex code)).stderr (d.tests.getD []) =
      .ok ((d.tests.getD []).map (fun t =>
        ⟨some (t.description.getD "Test"), false, none,
          some (.str "Execution error"),
          some "Error: Execution timeout (2 seconds exceeded)"⟩)) := by
    rw [hout]
    exact evalTests_ok_of_pointwise _ _ _ _ _
      (fun t _ => evaluate_test_short_circuit _ _ _ t (by decide) rfl)
  have := run_code_ok d ex _ h1 h2 hall
  rw [this, stdoutOf, stderrOf, hout]
  exact ⟨rfl, rfl⟩

/-- Witness for the amended C2: a concrete one-test request whose
execution times out. -/
theorem C2_witness :
    stdoutOf (run_code
      (some ⟨some "while True: pass", some [⟨some "output", none, none, some (.str "x"), none⟩]⟩)
      (fun _ => .timedOut)) = some "" ∧
    stderrOf (run_code
      (some ⟨some "while True: pass", some [⟨some "output", none, none, some (.str "x"), none⟩]⟩)
      (fun _ => .timedOut)) =
      some "Error: Execution timeout (2 seconds exceeded)" :=
  C2_timeout_outcome.2
    ⟨some "while True: pass", some [⟨some "output", none, none, some (.str "x"), none⟩]⟩
    (fun _ => .timedOut) (by decide) (by decide) rfl

/-! ### C6 -/

/-- C6: a request that reaches execution with an empty test list yields
`allPassed = true` — the AND over zero verdicts is vacuously true —
whatever the program wrote to stdout/stderr (the execution backend is
universally quantified). -/
theorem C6_empty_tests_vacuously_true :
    ∀ (d : ReqData) (ex : String → RawExec),
      d.code.getD "" ≠ "" →
      (d.code.getD "").data.length ≤ MAX_CODE_SIZE →
      d.tests.getD [] = [] →
      allPassedOf (run_code (some d) ex) = some true := by
  intro d ex h1 h2 h3
  have hok : evalTests (d.code.getD "")
      (execute_python_code (ex (d.code.getD ""))).stdout
      (execute_python_code (ex (d.code.getD ""))).stderr
      (d.tests.getD []) = .ok [] := by rw [h3]; rfl
  have := run_code_ok d ex [] h1 h2 hok
  rw [this]; rfl

/-- Witness for C6: empty test list, a program with both non-empty stdout
and non-empty stderr — `allPassed` is still `true`. -/
theorem C6_witness :
    allPassedOf (run_code (some ⟨some "print(1)", some []⟩)
      (fun _ => .completed "1" "warning")) = some true :=
  C6_empty_tests_vacuously_true ⟨some "print(1)", some []⟩
    (fun _ => .completed "1" "warning") (by decide) (by decide) rfl

/-! ### C4 -/

theorem mk_ne_empty_of_ne_nil {l : List Char} (h : l ≠ []) : (⟨l⟩ : String) ≠ "" := by
  intro he
  exact h (congrArg String.data he)

/-- A source program of 51201 copies of U+00E9 (two UTF-8 bytes each):
102402 bytes, but only 51201 code points. -/
def c4code : String := ⟨List.replicate 51201 (Char.ofNat 233)⟩

theorem c4code_data_ne_nil : List.replicate 51201 (Char.ofNat 233) ≠ [] := by
  intro h
  have h2 := congrArg List.length h
  rw [List.length_replicate, List.length_nil] at h2
  exact absurd h2 (by decide)

/-- C4 counterexample: `c4code` exceeds `maxSourceBytes` in byte length
(102402 > 102400 bytes) and is neither absent nor empty, yet the request
is not rejected — the handler runs it and answers 200, because line 352
checks `len(code)`, which counts code points (51201 ≤ 102400). -/
theorem C4_counterexample :
    utf8Len c4code > MAX_CODE_SIZE ∧
    c4code ≠ "" ∧
    isOkResp (run_code (some ⟨some c4code, some []⟩) (fun _ => .completed "" "")) = true := by
  refine ⟨?_, ?_, ?_⟩
  · show (c4code.data.map Char.utf8Size).sum > MAX_CODE_SIZE
    have h1 : c4code.data = List.replicate 51201 (Char.ofNat 233) := rfl
    have h2 : (Char.ofNat 233).utf8Size = 2 := rfl
    rw [h1, List.map_replicate, List.sum_replicate, h2]
    norm_num [MAX_CODE_SIZE]
  · exact mk_ne_empty_of_ne_nil c4code_data_ne_nil
  · have h1 : c4code ≠ "" := mk_ne_empty_of_ne_nil c4code_data_ne_nil
    have h2 : c4code.data.length ≤ MAX_CODE_SIZE := by
      show (List.replicate 51201 (Char.ofNat 233)).length ≤ MAX_CODE_SIZE
      rw [List.length_replicate]
      norm_num [MAX_CODE_SIZE]
    have h3 := run_code_ok ⟨some c4code, some []⟩ (fun _ => .completed "" "") [] h1 h2 rfl
    rw [h3]
    rfl

/-- C4 amended: a request with an absent or falsy body, an absent or
empty `code`, or a `code` whose length **in code points** exceeds
`maxSourceBytes` is answered 400 before the execution backend is ever
consulted (the response is the same for every backend); the size check is
`len(code)`, so byte length is not what is bounded. -/
theorem C4_validation :
    ∀ ex : String → RawExec,
      run_code none ex = .badRequest "Invalid JSON" ∧
      ∀ d : ReqData,
        (d.code.getD "" = "" → run_code (some d) ex = .badRequest "No code provided") ∧
        ((d.code.getD "").data.length > MAX_CODE_SIZE →
          run_code (some d) ex = .badRequest "Code exceeds maximum size (102400 bytes)") := by
  intro ex
  refine ⟨rfl, fun d => ⟨fun h => ?_, fun h => ?_⟩⟩
  · simp only [run_code, if_pos h]
  · have hne : d.code.getD "" ≠ "" := by
      intro heq
      rw [heq] at h
      exact absurd h (by decide)
    simp only [run_code, if_neg hne, if_pos h]

/-- Witness for the amended C4: an absent `code` and an over-long (in code
points) `code` are both rejected with the exact 400 bodies. -/
theorem C4_witness :
    run_code (some ⟨none, none⟩) (fun _ => .completed "" "") =
      .badRequest "No code provided" ∧
    run_code (some ⟨some ⟨List.replicate 102401 'a'⟩, none⟩) (fun _ => .completed "" "") =
      .badRequest "Code exceeds maximum size (102400 bytes)" := by
  constructor
  · exact ((C4_validation _).2 _).1 rfl
  · refine ((C4_validation _).2 _).2 ?_
    show (List.replicate 102401 'a').length > MAX_CODE_SIZE
    rw [List.length_replicate]
    norm_num [MAX_CODE_SIZE]

/-! ### Branch-unfolding lemmas for `evaluate_test` -/

theorem evaluate_test_variable_type (code out err : String) (desc : Option String)
    (v : String) (texp : Option PyVal) (expT : Option String)
    (hsc : ¬(err ≠ "" ∧ out = "")) :
    evaluate_test code out err ⟨some "variable_type", desc, some v, texp, expT⟩ =
      match searchAssign v.data code.data with
      | none => .ok ⟨desc, false, expT.map PyVal.str, some (.str "Variable not found"), none⟩
      | some raw =>
        .ok ⟨desc, decide (expT = some (detectType (pyStripChars raw))),
          expT.map PyVal.str, some (.str (detectType (pyStripChars raw))), none⟩ := by
  simp only [evaluate_test, if_neg hsc]

/-- C5 counterexample: Scenario C as claimed — code `name = "Alice"`,
`variable_type` test with `expectedType = "string"` — does **not** pass:
the classifier of lines 167-178 labels the value `"str"`, and
`"str" == "string"` is false. -/
theorem C5_counterexample :
    evaluate_test "name = \x22Alice\x22" "" ""
      ⟨some "variable_type", none, some "name", none, some "string"⟩ =
      .ok ⟨none, false, some (.str "string"), some (.str "str"), none⟩ := by
  rfl

/-- C5 amended: the inferred type is determined syntactically in strict
first-match order with the labels `str` / `int` / `float` / `list` /
`dict` / `unknown` (not `string` / `integer`), and the test passes iff
the expected type equals that label; for code `name = "Alice"` the
passing expectation is `expectedType = "str"`. -/
theorem C5_variable_type_rule :
    ∀ (code out err : String) (desc : Option String) (texp : Option PyVal) (v et : String),
      ¬(err ≠ "" ∧ out = "") →
      (searchAssign v.data code.data = none →
        evaluate_test code out err ⟨some "variable_type", desc, some v, texp, some et⟩ =
          .ok ⟨desc, false, some (.str et), some (.str "Variable not found"), none⟩) ∧
      (∀ raw, searchAssign v.data code.data = some raw →
        evaluate_test code out err ⟨some "variable_type", desc, some v, texp, some et⟩ =
          .ok ⟨desc, decide (et = detectType (pyStripChars raw)),
            some (.str et), some (.str (detectType (pyStripChars raw))), none⟩) := by
  intro code out err desc texp v et hsc
  constructor
  · intro hn
    rw [evaluate_test_variable_type code out err desc v texp (some et) hsc, hn]
    rfl
  · intro raw hs
    rw [evaluate_test_variable_type code out err desc v texp (some et) hsc, hs]
    simp

/-- Witness for the amended C5: Scenario C with the label the code really
produces — `expectedType = "str"` passes on `name = "Alice"`. -/
theorem C5_witness :
    evaluate_test "name = \x22Alice\x22" "" ""
      ⟨some "variable_type", none, some "name", none, some "str"⟩ =
      .ok ⟨none, true, some (.str "str"), some (.str "str"), none⟩ := by
  have h := (C5_variable_type_rule "name = \x22Alice\x22" "" "" none none "name" "str"
    (by simp)).2 ("\x22Alice\x22".data) rfl
  rw [h]
  rfl

/-! ### C7 -/

/-- `firstMatch` returns the leftmost position where the position-local
matcher succeeds: exactly `re.search` semantics. -/
theorem firstMatch_spec (m : List Char → Option (List Char)) :
    ∀ (s val : List Char),
      firstMatch m s = some val ↔
        ∃ i, m (List.drop i s) = some val ∧ ∀ j < i, m (List.drop j s) = none := by
  intro s
  induction s with
  | nil =>
    intro val
    constructor
    · intro h
      exact ⟨0, h, fun j hj => absurd hj (Nat.not_lt_zero j)⟩
    · rintro ⟨i, hi, _⟩
      rw [List.drop_nil] at hi
      exact hi
  | cons c rest ih =>
    intro val
    constructor
    · intro h
      cases hm : m (c :: rest) with
      | some w =>
        simp only [firstMatch, hm] at h
        exact ⟨0, by rw [List.drop_zero, hm, h], fun j hj => absurd hj (Nat.not_lt_zero j)⟩
      | none =>
        simp only [firstMatch, hm] at h
        obtain ⟨i, hi, hj⟩ := (ih val).mp h
        refine ⟨i + 1, by rwa [List.drop_succ_cons], fun j hjlt => ?_⟩
        cases j with
        | zero => rwa [List.drop_zero]
        | succ k =>
          rw [List.drop_succ_cons]
          exact hj k (Nat.lt_of_succ_lt_succ hjlt)
    · rintro ⟨i, hi, hj⟩
      cases i with
      | zero =>
        rw [List.drop_zero] at hi
        simp only [firstMatch, hi]
      | succ k =>
        have h0 : m (c :: rest) = none := by
          have := hj 0 (Nat.succ_pos k)
          rwa [List.drop_zero] at this
        simp only [firstMatch, h0]
        refine (ih val).mpr ⟨k, by rwa [List.drop_succ_cons] at hi, fun j hjk => ?_⟩
        have := hj (j + 1) (Nat.succ_lt_succ hjk)
        rwa [List.drop_succ_cons] at this

/-- C7 counterexample: the source `surname = 5` contains no whole-token
assignment of `name`, yet a `variable_type` test on `name` finds the
assignment inside the identifier `surname` (the patterns of lines 155,
193, 238 and 267 have no `\b` anchor) and passes with inferred type
`int` — under the claim's whole-token lookup the verdict would have been
`Variable not found`. -/
theorem C7_counterexample :
    evaluate_test "surname = 5" "" ""
      ⟨some "variable_type", none, some "name", none, some "int"⟩ =
      .ok ⟨none, true, some (.str "int"), some (.str "int"), none⟩ := by
  rfl

/-- C7 amended: every variable lookup matches the variable name literally
and case-sensitively at a `=` assignment and uses only the first
(leftmost) match in source order; but only `variable_exists` anchors the
name with a word boundary `\b` — `variable_type`, `variable_value`,
`list_contains` and `list_length` also match the name as a suffix of a
longer identifier.  The first two conjuncts characterise the
leftmost-match searches backing those four strategies; the remaining
conjuncts exhibit the suffix match, the `\b` contrast on
`variable_exists`, case-sensitivity, and first-assignment-only. -/
theorem C7_lookup_semantics :
    (∀ (v code val : List Char),
      searchAssign v code = some val ↔
        ∃ i, matchValueAt v (List.drop i code) = some val ∧
          ∀ j < i, matchValueAt v (List.drop j code) = none) ∧
    (∀ (v code val : List Char),
      searchList v code = some val ↔
        ∃ i, matchListAt v (List.drop i code) = some val ∧
          ∀ j < i, matchListAt v (List.drop j code) = none) ∧
    searchAssign "name".data "surname = 5".data = some "5".data ∧
    searchExists "name".data "surname = 5".data = false ∧
    evaluate_test "surname = 5" "" ""
      ⟨some "variable_exists", none, some "name", none, none⟩ =
      .ok ⟨none, false, some (.str "Variable \x27name\x27 should exist"),
        some (.str "Not found"), none⟩ ∧
    searchAssign "name".data "Name = 5".data = none ∧
    searchAssign "x".data "x = 1\nx = 2".data = some "1".data := by
  refine ⟨fun v code => firstMatch_spec (matchValueAt v) code,
    fun v code => firstMatch_spec (matchListAt v) code, rfl, rfl, rfl, rfl, rfl⟩

/-! ### C8 -/

theorem evalTests_forall2 (code out err : String) :
    ∀ (ts : List TestSpec) (rs : List TestVerdict),
      evalTests code out err ts = .ok rs →
      List.Forall₂ (fun t r => evaluate_test code out err t = .ok r) ts rs := by
  intro ts
  induction ts with
  | nil =>
    intro rs h
    simp only [evalTests] at h
    injection h with h2
    subst h2
    exact List.Forall₂.nil
  | cons t ts ih =>
    intro rs h
    cases he : evaluate_test code out err t with
    | error e =>
      simp only [evalTests, he] at h
      exact Except.noConfusion h
    | ok r =>
      cases hts : evalTests code out err ts with
      | error e =>
        simp only [evalTests, he, hts] at h
        exact Except.noConfusion h
      | ok rs2 =>
        simp only [evalTests, he, hts] at h
        injection h with h2
        subst h2
        exact List.Forall₂.cons he (ih rs2 hts)

theorem evalTests_error_of_mem (code out err : String) :
    ∀ (ts : List TestSpec) (t : TestSpec), t ∈ ts →
      evaluate_test code out err t = .error .typeError →
      evalTests code out err ts = .error .typeError := by
  intro ts
  induction ts with
  | nil =>
    intro t ht
    exact absurd ht (List.not_mem_nil t)
  | cons a rest ih =>
    intro t ht he
    rcases List.mem_cons.mp ht with h | h
    · subst h
      simp only [evalTests, he]
    · cases ha : evaluate_test code out err a with
      | error e =>
        cases e
        simp only [evalTests, ha]
      | ok r =>
        simp only [evalTests, ha]
        rw [ih t h he]

/-- C8 counterexample: `evaluate_test` does **not** return a verdict for
every `TestSpec` dict — a `variable_exists` spec without a `variable`
field makes line 140 call `re.escape(None)`, raising `TypeError` (here:
the `.error` result), even though the program itself ran fine. -/
theorem C8_counterexample :
    evaluate_test "x = 1" "ok" ""
      ⟨some "variable_exists", none, none, none, none⟩ = .error .typeError := by
  rfl

/-- C8 amended: whenever the evaluation loop completes, it yields exactly
one verdict per `TestSpec` in input order, each computed independently
from its own spec (the `Forall₂` conjuncts); but a variable-based spec
missing its `variable` field makes `evaluate_test` raise `TypeError`
(unless the stderr/stdout short-circuit fires first), and through the
handler's catch-all that turns the whole request into an HTTP 500 with
zero verdicts. -/
theorem C8_one_verdict_per_spec :
    (∀ (code out err : String) (ts : List TestSpec) (rs : List TestVerdict),
      evalTests code out err ts = .ok rs →
      List.Forall₂ (fun t r => evaluate_test code out err t = .ok r) ts rs) ∧
    (∀ (code out err : String) (ts : List TestSpec) (rs : List TestVerdict),
      evalTests code out err ts = .ok rs → rs.length = ts.length) ∧
    (∀ (code out err : String) (desc : Option String) (texp : Option PyVal)
      (expT : Option String), ¬(err ≠ "" ∧ out = "") →
      evaluate_test code out err ⟨some "variable_exists", desc, none, texp, expT⟩ =
        .error .typeError) ∧
    (∀ (d : ReqData) (ex : String → RawExec) (t : TestSpec),
      d.code.getD "" ≠ "" →
      (d.code.getD "").data.length ≤ MAX_CODE_SIZE →
      t ∈ d.tests.getD [] →
      evaluate_test (d.code.getD "")
        (execute_python_code (ex (d.code.getD ""))).stdout
        (execute_python_code (ex (d.code.getD ""))).stderr t = .error .typeError →
      run_code (some d) ex = .serverError "TypeError") := by
  refine ⟨evalTests_forall2, ?_, ?_, ?_⟩
  · intro code out err ts rs h
    exact (List.Forall₂.length_eq (evalTests_forall2 code out err ts rs h)).symm
  · intro code out err desc texp expT hsc
    simp only [evaluate_test, if_neg hsc]
  · intro d ex t h1 h2 hmem herr
    have := evalTests_error_of_mem _ _ _ (d.tests.getD []) t hmem herr
    exact run_code_error d ex .typeError h1 h2 this

/-- Witness for the amended C8: a well-formed one-test list evaluates to
exactly one verdict, and a request whose single test lacks `variable`
is answered with a 500. -/
theorem C8_witness :
    ([(⟨none, false, some (.str ""), some (.str "ok"), none⟩ : TestVerdict)].length =
      [(⟨some "output", none, none, none, none⟩ : TestSpec)].length) ∧
    run_code
      (some ⟨some "x = 1", some [⟨some "variable_exists", none, none, none, none⟩]⟩)
      (fun _ => .completed "ok" "") = .serverError "TypeError" := by
  constructor
  · exact C8_one_verdict_per_spec.2.1 "x = 1" "ok" ""
      [⟨some "output", none, none, none, none⟩]
      [⟨none, false, some (.str ""), some (.str "ok"), none⟩] rfl
  · exact C8_one_verdict_per_spec.2.2.2
      ⟨some "x = 1", some [⟨some "variable_exists", none, none, none, none⟩]⟩
      (fun _ => .completed "ok" "")
      ⟨some "variable_exists", none, none, none, none⟩
      (by decide) (by decide) (List.mem_singleton.mpr rfl) rfl

/-! ### C9 and C10 -/

theorem evaluate_test_list_length (code out err : String) (desc : Option String)
    (v : String) (texp : Option PyVal) (expT : Option String)
    (hsc : ¬(err ≠ "" ∧ out = "")) :
    evaluate_test code out err ⟨some "list_length", desc, some v, texp, expT⟩ =
      match searchList v.data code.data with
      | none => .ok ⟨desc, false, texp, some (.str "List not found"), none⟩
      | some content =>
        .ok ⟨desc, decide (texp = some (.int (countItems content : Int))),
          texp, some (.int (countItems content : Int)), none⟩ := by
  simp only [evaluate_test, if_neg hsc]

theorem evaluate_test_list_contains (code out err : String) (desc : Option String)
    (v : String) (texp : Option PyVal) (expT : Option String)
    (hsc : ¬(err ≠ "" ∧ out = "")) :
    evaluate_test code out err ⟨some "list_contains", desc, some v, texp, expT⟩ =
      match searchList v.data code.data with
      | none => .ok ⟨desc, false, texp, some (.str "List not found"), none⟩
      | some content =>
        .ok ⟨desc,
          containsSub (jsonDumps texp).data content ||
            containsSub ("\x27" ++ pyStrN texp ++ "\x27").data content ||
            containsSub ("\x22" ++ pyStrN texp ++ "\x22").data content,
          some (.str ("List should contain " ++ pyStrN texp)),
          some (.str ⟨content⟩), none⟩ := by
  simp only [evaluate_test, if_neg hsc]

/-- C9: when the `list_length` lookup finds a bracket body, the test
passes iff the number of comma-separated, non-empty, trimmed tokens in it
equals the expected integer, and the verdict's `actual` field always
carries the computed count. -/
theorem C9_list_length_rule :
    ∀ (code out err : String) (desc : Option String) (v : String) (expT : Option String)
      (n : Int) (content : List Char),
      ¬(err ≠ "" ∧ out = "") →
      searchList v.data code.data = some content →
      evaluate_test code out err ⟨some "list_length", desc, some v, some (.int n), expT⟩ =
        .ok ⟨desc, decide (n = (countItems content : Int)), some (.int n),
          some (.int (countItems content : Int)), none⟩ := by
  intro code out err desc v expT n content hsc hs
  rw [evaluate_test_list_length code out err desc v (some (.int n)) expT hsc, hs]
  simp

/-- Witness for C9 — Scenario D: `fruits = ["apple", "banana", "cherry"]`
with `list_length(fruits, expected = 3)` passes, `actual = 3`. -/
theorem C9_witness :
    evaluate_test "fruits = [\x22apple\x22, \x22banana\x22, \x22cherry\x22]" "" ""
      ⟨some "list_length", none, some "fruits", some (.int 3), none⟩ =
      .ok ⟨none, true, some (.int 3), some (.int 3), none⟩ := by
  have h := C9_list_length_rule "fruits = [\x22apple\x22, \x22banana\x22, \x22cherry\x22]"
    "" "" none "fruits" none 3 ("\x22apple\x22, \x22banana\x22, \x22cherry\x22".data)
    (by simp) rfl
  rw [h]
  rfl

/-- C10 counterexample: for code `x = []` followed by `x = [1]`, the
variable's **first** assignment is the empty list literal, yet the
verdict is not `List not found`: the pattern `\[(.+?)\]` cannot match the
empty brackets, so `re.search` walks on and matches the *later*
assignment `x = [1]`, and a `list_length` test with expected 1 passes
with `actual = 1`. -/
theorem C10_counterexample :
    evaluate_test "x = []\nx = [1]" "" ""
      ⟨some "list_length", none, some "x", some (.int 1), none⟩ =
      .ok ⟨none, true, some (.int 1), some (.int 1), none⟩ := by
  rfl

/-- C10 amended: the bracket pattern requires at least one character
between the brackets, so an empty list literal can never be the match;
when **no** assignment of the variable carries a non-empty bracket body
(for instance when `x = []` is the only assignment), `list_contains` and
`list_length` fail with `actual = "List not found"`. -/
theorem C10_empty_list_never_matches :
    (∀ (cs content : List Char), bracketContent cs = some content → content ≠ []) ∧
    searchList "x".data "x = []".data = none ∧
    (∀ (code out err : String) (desc : Option String) (v : String) (texp : Option PyVal)
      (expT : Option String),
      ¬(err ≠ "" ∧ out = "") →
      searchList v.data code.data = none →
      evaluate_test code out err ⟨some "list_length", desc, some v, texp, expT⟩ =
        .ok ⟨desc, false, texp, some (.str "List not found"), none⟩ ∧
      evaluate_test code out err ⟨some "list_contains", desc, some v, texp, expT⟩ =
        .ok ⟨desc, false, texp, some (.str "List not found"), none⟩) := by
  refine ⟨?_, rfl, ?_⟩
  · intro cs content h
    cases cs with
    | nil => exact Option.noConfusion h
    | cons c rest =>
      simp only [bracketContent] at h
      by_cases hc : c = '\n'
      · rw [if_pos hc] at h
        exact Option.noConfusion h
      · rw [if_neg hc] at h
        cases hb : bcAux rest with
        | none =>
          rw [hb] at h
          exact Option.noConfusion h
        | some l =>
          rw [hb, Option.map_some'] at h
          injection h with h2
          rw [← h2]
          exact List.cons_ne_nil c l
  · intro code out err desc v texp expT hsc hn
    constructor
    · rw [evaluate_test_list_length code out err desc v texp expT hsc, hn]
    · rw [evaluate_test_list_contains code out err desc v texp expT hsc, hn]

/-- Witness for the amended C10: `x = []` alone — both list strategies
report `List not found` and fail. -/
theorem C10_witness :
    evaluate_test "x = []" "" ""
      ⟨some "list_length", none, some "x", some (.int 0), none⟩ =
      .ok ⟨none, false, some (.int 0), some (.str "List not found"), none⟩ ∧
    evaluate_test "x = []" "" ""
      ⟨some "list_contains", none, some "x", some (.str "a"), none⟩ =
      .ok ⟨none, false, some (.str "a"), some (.str "List not found"), none⟩ := by
  constructor
  · exact (C10_empty_list_never_matches.2.2 "x = []" "" "" none "x"
      (some (.int 0)) none (by simp) rfl).1
  · exact (C10_empty_list_never_matches.2.2 "x = []" "" "" none "x"
      (some (.str "a")) none (by simp) rfl).2

/-! ### C3 -/

theorem dropWhile_keeps_sentinel (c : Char) (w : List Char) (hc : isPySpace c = false) :
    ∀ x : List Char, (c :: w) <:+ List.dropWhile isPySpace (x ++ '\n' :: c :: w) := by
  intro x
  induction x with
  | nil =>
    show (c :: w) <:+ List.dropWhile isPySpace ('\n' :: c :: w)
    rw [List.dropWhile_cons, if_pos (show isPySpace '\n' = true from rfl),
      List.dropWhile_cons, if_neg (by rw [hc]; exact Bool.false_ne_true)]
  | cons a x' ih =>
    show (c :: w) <:+ List.dropWhile isPySpace (a :: (x' ++ '\n' :: c :: w))
    rw [List.dropWhile_cons]
    by_cases ha : isPySpace a = true
    · rw [if_pos ha]
      exact ih
    · rw [if_neg ha]
      exact ((List.suffix_cons '\n' (c :: w)).trans
        (List.suffix_append x' ('\n' :: c :: w))).trans
        (List.suffix_cons a (x' ++ '\n' :: c :: w))

theorem dropWhile_rev_self (l : List Char) (d : Char) (hd : l.getLast? = some d)
    (hds : isPySpace d = false) :
    l.reverse.dropWhile isPySpace = l.reverse := by
  cases hrl : l.reverse with
  | nil => rfl
  | cons e z =>
    have h1 := hd
    rw [← List.head?_reverse, hrl, List.head?_cons] at h1
    have he : e = d := Option.some.inj h1
    rw [List.dropWhile_cons, he, hds]
    simp

theorem pyStripChars_keeps_sentinel (c : Char) (w : List Char) (hc : isPySpace c = false)
    (d : Char) (hlast : (c :: w).getLast? = some d) (hd : isPySpace d = false) :
    ∀ x : List Char, (c :: w) <:+ pyStripChars (x ++ '\n' :: c :: w) := by
  intro x
  obtain ⟨y, hy⟩ := dropWhile_keeps_sentinel c w hc x
  show (c :: w) <:+
    ((List.dropWhile isPySpace (x ++ '\n' :: c :: w)).reverse.dropWhile isPySpace).reverse
  rw [← hy, dropWhile_rev_self (y ++ c :: w) d
    (by rw [List.getLast?_append_of_ne_nil y (List.cons_ne_nil c w)]; exact hlast) hd,
    List.reverse_reverse]
  exact List.suffix_append y (c :: w)

/-- Front strip of the truncated-and-tagged stream used in the C3
counterexample: the leading space of the capped prefix is eaten. -/
theorem c3_dropWhile_front :
    List.dropWhile isPySpace ((' ' :: List.replicate 1048575 'a') ++ OUT_SENT.data) =
      List.replicate 1048575 'a' ++ OUT_SENT.data := by
  rw [List.cons_append, List.dropWhile_cons, if_pos (show isPySpace ' ' = true from rfl),
    show (1048575 : Nat) = 1048574 + 1 from by norm_num, List.replicate_succ,
    List.cons_append, List.dropWhile_cons,
    if_neg (by rw [show isPySpace 'a' = false from rfl]; exact Bool.false_ne_true)]

theorem c3_strip_eq :
    pyStripChars ((' ' :: List.replicate 1048575 'a') ++ OUT_SENT.data) =
      List.replicate 1048575 'a' ++ OUT_SENT.data := by
  show ((List.dropWhile isPySpace ((' ' :: List.replicate 1048575 'a') ++ OUT_SENT.data)).reverse.dropWhile
    isPySpace).reverse = _
  rw [c3_dropWhile_front,
    dropWhile_rev_self (List.replicate 1048575 'a' ++ OUT_SENT.data) ']'
      (by rw [List.getLast?_append_of_ne_nil _ (by decide)]; rfl) rfl,
    List.reverse_reverse]

/-- C3 counterexample: a program whose raw stdout is a space followed by
2^20 copies of `a` (1048577 characters, above the 1 MiB cap).  The final
outcome stdout is **not** "exactly `maxOutputBytes` bytes followed by the
truncation sentinel": line 78 strips the concatenation afterwards, eating
the leading space of the capped prefix (and the outcome carries no
`truncatedStdout` / `truncatedStderr` flags at all — the dict has only
`stdout` and `stderr`). -/
theorem C3_counterexample :
    (⟨' ' :: List.replicate 1048576 'a'⟩ : String).data.length > MAX_OUTPUT_SIZE ∧
    (execute_python_code (.completed ⟨' ' :: List.replicate 1048576 'a'⟩ "")).stdout ≠
      ⟨(' ' :: List.replicate 1048576 'a').take MAX_OUTPUT_SIZE ++ OUT_SENT.data⟩ := by
  have hlen : (' ' :: List.replicate 1048576 'a').length = 1048577 := by
    rw [List.length_cons, List.length_replicate]
  have htake : (' ' :: List.replicate 1048576 'a').take MAX_OUTPUT_SIZE =
      ' ' :: List.replicate 1048575 'a' := by
    rw [show MAX_OUTPUT_SIZE = 1048575 + 1 from by norm_num [MAX_OUTPUT_SIZE],
      List.take_succ_cons, List.take_replicate, min_eq_left (by norm_num)]
  constructor
  · show (' ' :: List.replicate 1048576 'a').length > MAX_OUTPUT_SIZE
    rw [hlen]
    norm_num [MAX_OUTPUT_SIZE]
  · have htr : pyTrunc ⟨' ' :: List.replicate 1048576 'a'⟩ OUT_SENT =
        ⟨' ' :: List.replicate 1048575 'a'⟩ ++ OUT_SENT := by
      simp only [pyTrunc]
      rw [if_pos (by rw [hlen]; norm_num [MAX_OUTPUT_SIZE])]
      rw [htake]
    have hproj : ∀ u : String, (pyStrip u).data = pyStripChars u.data := fun u => rfl
    have hstd : (execute_python_code (.completed ⟨' ' :: List.replicate 1048576 'a'⟩ "")).stdout.data =
        List.replicate 1048575 'a' ++ OUT_SENT.data := by
      have h0 : (execute_python_code (.completed ⟨' ' :: List.replicate 1048576 'a'⟩ "")).stdout =
          pyStrip (pyTrunc ⟨' ' :: List.replicate 1048576 'a'⟩ OUT_SENT) := rfl
      rw [h0, htr, hproj, String.data_append,
        show (⟨' ' :: List.replicate 1048575 'a'⟩ : String).data =
          ' ' :: List.replicate 1048575 'a' from rfl, List.cons_append]
      rw [show (' ' :: (List.replicate 1048575 'a' ++ OUT_SENT.data)) =
        (' ' :: List.replicate 1048575 'a') ++ OUT_SENT.data from (List.cons_append _ _ _).symm]
      exact c3_strip_eq
    intro heq
    have hdata := congrArg String.data heq
    rw [hstd, htake] at hdata
    have hl := congrArg List.length hdata
    rw [List.length_append, List.length_replicate, List.cons_append, List.length_cons,
      List.length_append, List.length_replicate] at hl
    omega

/-- C3 amended: for raw streams longer than `maxOutputBytes` *characters*
(line 68 slices the decoded string, so the cap counts code points, not
bytes), the outcome stream is the first `maxOutputBytes` characters with
`"\n[Output truncated - exceeded 1MB limit]"` (resp. the `Error output`
sentinel) appended and the whole concatenation then stripped of leading
and trailing whitespace; the bracketed sentinel text always survives as a
suffix.  The outcome has no `truncatedStdout` / `truncatedStderr` flags —
truncation is observable only through the sentinel. -/
theorem C3_output_truncation :
    ∀ (out err : String),
      out.data.length > MAX_OUTPUT_SIZE →
      err.data.length > MAX_OUTPUT_SIZE →
      (execute_python_code (.completed out err)).stdout.data =
        pyStripChars (out.data.take MAX_OUTPUT_SIZE ++ OUT_SENT.data) ∧
      (execute_python_code (.completed out err)).stderr.data =
        pyStripChars (err.data.take MAX_OUTPUT_SIZE ++ ERR_SENT.data) ∧
      "[Output truncated - exceeded 1MB limit]".data <:+
        (execute_python_code (.completed out err)).stdout.data ∧
      "[Error output truncated - exceeded 1MB limit]".data <:+
        (execute_python_code (.completed out err)).stderr.data := by
  intro out err ho he
  have hto : pyTrunc out OUT_SENT = ⟨out.data.take MAX_OUTPUT_SIZE⟩ ++ OUT_SENT := by
    simp only [pyTrunc]
    rw [if_pos ho]
  have hte : pyTrunc err ERR_SENT = ⟨err.data.take MAX_OUTPUT_SIZE⟩ ++ ERR_SENT := by
    simp only [pyTrunc]
    rw [if_pos he]
  have hdo : (execute_python_code (.completed out err)).stdout.data =
      pyStripChars (out.data.take MAX_OUTPUT_SIZE ++ OUT_SENT.data) := by
    show (pyStrip (pyTrunc out OUT_SENT)).data = _
    rw [hto]
    rfl
  have hde : (execute_python_code (.completed out err)).stderr.data =
      pyStripChars (err.data.take MAX_OUTPUT_SIZE ++ ERR_SENT.data) := by
    show (pyStrip (pyTrunc err ERR_SENT)).data = _
    rw [hte]
    rfl
  refine ⟨hdo, hde, ?_, ?_⟩
  · rw [hdo, show OUT_SENT.data = '\n' :: "[Output truncated - exceeded 1MB limit]".data from rfl,
      show "[Output truncated - exceeded 1MB limit]".data =
        '[' :: "Output truncated - exceeded 1MB limit]".data from rfl]
    exact pyStripChars_keeps_sentinel '[' "Output truncated - exceeded 1MB limit]".data
      rfl ']' (by rfl) rfl (out.data.take MAX_OUTPUT_SIZE)
  · rw [hde, show ERR_SENT.data = '\n' :: "[Error output truncated - exceeded 1MB limit]".data from rfl,
      show "[Error output truncated - exceeded 1MB limit]".data =
        '[' :: "Error output truncated - exceeded 1MB limit]".data from rfl]
    exact pyStripChars_keeps_sentinel '[' "Error output truncated - exceeded 1MB limit]".data
      rfl ']' (by rfl) rfl (err.data.take MAX_OUTPUT_SIZE)

/-- Witness for the amended C3: both raw streams one character above the
cap — the bracketed sentinels appear as suffixes of the outcome. -/
theorem C3_witness :
    (⟨List.replicate 1048577 'a'⟩ : String).data.length > MAX_OUTPUT_SIZE ∧
    "[Output truncated - exceeded 1MB limit]".data <:+
      (execute_python_code
        (.completed ⟨List.replicate 1048577 'a'⟩ ⟨List.replicate 1048577 'b'⟩)).stdout.data ∧
    "[Error output truncated - exceeded 1MB limit]".data <:+
      (execute_python_code
        (.completed ⟨List.replicate 1048577 'a'⟩ ⟨List.replicate 1048577 'b'⟩)).stderr.data := by
  have ha : (⟨List.replicate 1048577 'a'⟩ : String).data.length > MAX_OUTPUT_SIZE := by
    show (List.replicate 1048577 'a').length > MAX_OUTPUT_SIZE
    rw [List.length_replicate]
    norm_num [MAX_OUTPUT_SIZE]
  have hb : (⟨List.replicate 1048577 'b'⟩ : String).data.length > MAX_OUTPUT_SIZE := by
    show (List.replicate 1048577 'b').length > MAX_OUTPUT_SIZE
    rw [List.length_replicate]
    norm_num [MAX_OUTPUT_SIZE]
  have h := C3_output_truncation ⟨List.replicate 1048577 'a'⟩ ⟨List.replicate 1048577 'b'⟩ ha hb
  exact ⟨ha, h.2.2.1, h.2.2.2⟩

end Runner
